import Mathlib

/-!
Shallow embedding of `src/streamlit_app.py` (the Multimodal AI Design Agent
Team Streamlit script).  The script is straight-line UI code; we model one
execution of the script as a pure function from its inputs (widget values
and environment oracles: whether agent construction raises, whether each
pasted image converts, what each remote agent call returns) to a trace of
observable events: rendered widgets and messages, remote agent calls, and
filesystem writes.  An uncaught Python exception is modelled by a distinct
script result constructor.
-/

namespace DesignAgentTeam

/-- A design asset: a pasted in-memory image.  `name` is the widget-provided
file name used in the conversion error message (line 145 of the source).
`conversionFails` is the environment oracle for whether saving this image to
a temporary PNG raises (lines 135-138), and `convMsg` is the text of that
exception. -/
structure DesignFile where
  name : String
  conversionFails : Bool
  convMsg : String
deriving Repr, DecidableEq

/-- The remote model configuration, `Gemini(id=..., api_key=...)` (line 13). -/
structure GeminiModel where
  id : String
  api_key : String
deriving Repr, DecidableEq

/-- A remote agent binding: model, fixed instruction preamble, markdown flag
(lines 15-39). -/
structure Agent where
  model : GeminiModel
  instructions : List String
  markdown : Bool
deriving Repr, DecidableEq

/-- Instruction preamble of the visual-analysis agent (lines 17-24). -/
def visionInstructions : List String :=
  ["You are a visual analysis expert that:",
   "1. Identifies design elements, patterns, and visual hierarchy",
   "2. Analyzes color schemes, typography, and layouts",
   "3. Detects UI components and their relationships",
   "4. Evaluates visual consistency and branding",
   "Be specific and technical in your analysis"]

/-- Instruction preamble of the UX-analysis agent (lines 30-37). -/
def uxInstructions : List String :=
  ["You are a UX analysis expert that:",
   "1. Evaluates user flows and interaction patterns",
   "2. Identifies usability issues and opportunities",
   "3. Suggests UX improvements based on best practices",
   "4. Analyzes accessibility and inclusive design",
   "Focus on user-centric insights and practical improvements"]

/-- The Gemini model value built at line 13. -/
def geminiModel (api_key : String) : GeminiModel :=
  { id := "gemini-2.0-flash-exp", api_key := api_key }

/-- The vision agent built at lines 15-26. -/
def visionAgentOf (api_key : String) : Agent :=
  { model := geminiModel api_key, instructions := visionInstructions, markdown := true }

/-- The UX agent built at lines 28-39. -/
def uxAgentOf (api_key : String) : Agent :=
  { model := geminiModel api_key, instructions := uxInstructions, markdown := true }

/-- Outcome of one `agent.run(...)` remote call, supplied by the environment:
the call either returns a response whose `.content` is `content`, or raises
an exception with message `msg`. -/
inductive CallOutcome where
  | ok (content : String)
  | raise (msg : String)
deriving Repr, DecidableEq

/-- Observable events of one script execution: rendered output
(`st.header`, `st.subheader`, `st.warning`, `st.error`, `st.info`,
`st.success`, `st.markdown`, `st.image`, `st.spinner`, the paste button),
remote agent calls (`agent.run(message=..., images=...)`), and filesystem
effects.  `fsDelete` is in the vocabulary so that absence of any cleanup
step is expressible; the source contains no file-deletion call, so no
definition below ever emits it. -/
inductive Event where
  | headerE (text : String)
  | subheaderE (text : String)
  | warning (text : String)
  | errorMsg (text : String)
  | info (text : String)
  | successMsg (text : String)
  | markdownE (text : String)
  | imageShown
  | buttonShown (label : String)
  | spinnerShown (text : String)
  | remoteCall (agent : Agent) (message : String) (images : List String)
  | fsWrite (path : String)
  | fsDelete (path : String)
deriving Repr, DecidableEq

/-- `os.path.join(temp_dir, f"{uuid.uuid4().hex}.png")` (lines 132-133). -/
def temp_path (tempDir : String) (uuidHex : String) : String :=
  tempDir ++ "/" ++ uuidHex ++ ".png"

/-- One iteration of the loop body of `process_images` (lines 124-146), for
the file at 0-based position `i` of the input list.  A fresh uuid
(`uuidGen i`) is consumed before the conversion is attempted; on success one
temporary PNG is written and its path collected, on failure an inline error
naming the asset is rendered and the asset is skipped. -/
def processOne (tempDir : String) (uuidGen : Nat → String) (i : Nat)
    (file : DesignFile) : List Event × Option String :=
  let path := temp_path tempDir (uuidGen i)
  if file.conversionFails then
    ([Event.errorMsg ("Error processing image " ++ file.name ++ ": " ++ file.convMsg)],
     none)
  else
    ([Event.fsWrite path], some path)

/-- The loop of `process_images` starting at position `i`. -/
def process_images_from (tempDir : String) (uuidGen : Nat → String) :
    Nat → List DesignFile → List Event × List String
  | _, [] => ([], [])
  | i, f :: fs =>
    let r := processOne tempDir uuidGen i f
    let rest := process_images_from tempDir uuidGen (i + 1) fs
    (r.1 ++ rest.1, r.2.toList ++ rest.2)

/-- `process_images(files)` (lines 122-147): returns the rendered events and
the list of temporary-file paths of the successfully converted assets, in
input order. -/
def process_images (tempDir : String) (uuidGen : Nat → String)
    (files : List DesignFile) : List Event × List String :=
  process_images_from tempDir uuidGen 0 files

/-- The 32-space indentation the triple-quoted prompt templates carry from
the source nesting. -/
def promptInd : String := "                                "

/-- `vision_prompt` (lines 155-162): the visual-design prompt template with
the focus tags joined by a comma and the free-text context interpolated. -/
def vision_prompt (specific_elements : List String) (context : String) : String :=
  "\n" ++ promptInd ++ "Analyze these designs focusing on: " ++
    String.intercalate ", " specific_elements ++
  "\n" ++ promptInd ++ "Additional context: " ++ context ++
  "\n" ++ promptInd ++ "Provide specific insights about visual design elements.\n" ++
  "\n" ++ promptInd ++ "Please format your response with clear headers and bullet points.\n" ++
  promptInd ++ "Focus on concrete observations and actionable insights.\n" ++
  promptInd

/-- `ux_prompt` (lines 176-183): the user-experience prompt template. -/
def ux_prompt (specific_elements : List String) (context : String) : String :=
  "\n" ++ promptInd ++ "Evaluate the user experience considering: " ++
    String.intercalate ", " specific_elements ++
  "\n" ++ promptInd ++ "Additional context: " ++ context ++
  "\n" ++ promptInd ++ "Focus on user flows, interactions, and accessibility.\n" ++
  "\n" ++ promptInd ++ "Please format your response with clear headers and bullet points.\n" ++
  promptInd ++ "Focus on concrete observations and actionable improvements.\n" ++
  promptInd

/-- The configuration and environment of one press of the Run Analysis
button: the selected analysis categories and focus tags, the free-text
context, the platform temp directory, the uuid supply, and the outcome each
remote call would have. -/
structure RunConfig where
  analysis_types : List String
  specific_elements : List String
  context : String
  tempDir : String
  uuidGen : Nat → String
  visionOutcome : CallOutcome
  uxOutcome : CallOutcome

/-- The Visual Design block (lines 152-170).  Entered when "Visual Design"
is selected and `design_files` is non-empty; the spinner is shown for the
block, the remote call is made only when `image_urls` is non-empty.  Returns
the rendered events and, when the remote call raises, the exception
message. -/
def visionBlock (cfg : RunConfig) (vision_agent : Agent)
    (design_files : List DesignFile) (image_urls : List String) :
    List Event × Option String :=
  if cfg.analysis_types.contains "Visual Design" && !design_files.isEmpty then
    let evs := [Event.spinnerShown "🎨 Analyzing visual design..."]
    if image_urls.isEmpty then (evs, none)
    else
      let evs := evs ++ [Event.remoteCall vision_agent
        (vision_prompt cfg.specific_elements cfg.context) image_urls]
      match cfg.visionOutcome with
      | CallOutcome.raise msg => (evs, some msg)
      | CallOutcome.ok content =>
        (evs ++ [Event.subheaderE "🎨 Visual Design Analysis",
                 Event.markdownE content], none)
  else ([], none)

/-- The User Experience block (lines 173-191).  Entered when
"User Experience" is selected; the remote call is made only when
`image_urls` is non-empty. -/
def uxBlock (cfg : RunConfig) (ux_agent : Agent) (image_urls : List String) :
    List Event × Option String :=
  if cfg.analysis_types.contains "User Experience" then
    let evs := [Event.spinnerShown "🔄 Analyzing user experience..."]
    if image_urls.isEmpty then (evs, none)
    else
      let evs := evs ++ [Event.remoteCall ux_agent
        (ux_prompt cfg.specific_elements cfg.context) image_urls]
      match cfg.uxOutcome with
      | CallOutcome.raise msg => (evs, some msg)
      | CallOutcome.ok content =>
        (evs ++ [Event.subheaderE "🔄 UX Analysis",
                 Event.markdownE content], none)
  else ([], none)

/-- The fixed summary note text (lines 196-200). -/
def takeawaysText : String :=
  "\n                        Above you\x27ll find detailed analysis from multiple specialized AI agents, each focusing on their area of expertise:\n                        - Visual Design Agent: Analyzes design elements and patterns\n                        - UX Agent: Evaluates user experience and interactions\n                        "

/-- The Combined Insights block (lines 194-200): rendered exactly when more
than one analysis type is selected. -/
def takeawaysBlock (analysis_types : List String) : List Event :=
  if 1 < analysis_types.length then
    [Event.subheaderE "🎯 Key Takeaways", Event.info takeawaysText]
  else []

/-- The body of the `try` at lines 120-200: convert the images once, run the
two category blocks in their fixed source order, then the combined-insights
block.  An exception raised by a remote call aborts the rest of the body and
is returned for the `except` clause. -/
def tryBody (cfg : RunConfig) (vision_agent ux_agent : Agent)
    (design_files : List DesignFile) : List Event × Option String :=
  let p := process_images cfg.tempDir cfg.uuidGen design_files
  let image_urls := p.2
  let v := visionBlock cfg vision_agent design_files image_urls
  match v.2 with
  | some msg => (p.1 ++ v.1, some msg)
  | none =>
    let u := uxBlock cfg ux_agent image_urls
    match u.2 with
    | some msg => (p.1 ++ v.1 ++ u.1, some msg)
    | none => (p.1 ++ v.1 ++ u.1 ++ takeawaysBlock cfg.analysis_types, none)

/-- The Run Analysis button handler (lines 117-206): with no design assets
render only the no-assets warning, otherwise run the analysis body under
the top-level try/except, which on any exception renders the generic error
plus the credential hint (lines 202-204).  The `print(len(design_files))`
at line 118 goes to stdout, not to the user surface, and is not an event. -/
def run_analysis (cfg : RunConfig) (vision_agent ux_agent : Agent)
    (design_files : List DesignFile) : List Event :=
  if design_files.isEmpty then
    [Event.warning "Please upload at least one design to analyze."]
  else
    let r := tryBody cfg vision_agent ux_agent design_files
    match r.2 with
    | some msg =>
      r.1 ++ [Event.errorMsg ("An error occurred during analysis: " ++ msg),
              Event.errorMsg "Please check your API key and try again."]
    | none => r.1

/-- Embedding of `initialize_agents` (lines 11-44).  The Python function is
annotated `tuple[Agent, Agent, Agent]`; its normal path returns the 2-tuple
`(vision_agent, ux_agent)` (line 41), while its `except` branch renders an
inline error and returns the 3-tuple `(None, None, None)` (lines 43-44).  We
model the returned tuple as a list of optional agents so that the arity of
the tuple the caller unpacks is observable.  `initRaises` is the environment
oracle for whether constructing the model or the agents raises, and
`initErr` the text of that exception. -/
def init_agents (api_key : String) (initRaises : Bool) (initErr : String) :
    List Event × List (Option Agent) :=
  if initRaises then
    ([Event.errorMsg ("Error initializing agents: " ++ initErr)],
     [none, none, none])
  else
    ([], [some (visionAgentOf api_key), some (uxAgentOf api_key)])

/-- Lines 85-93: `design_files` starts empty and the paste button is the
only control that appends to it, one pasted image per render; there is no
upload widget.  The run action therefore receives this list. -/
def design_files_of (paste_image : Option DesignFile) : List DesignFile :=
  match paste_image with
  | some f => [f]
  | none => []

/-- All inputs of one top-to-bottom execution of the script: the credential
in the session state after the sidebar sync (lines 51-63), the environment
oracles, the widget values, and whether the Run Analysis button was the
trigger of this rerun. -/
structure ScriptInput where
  api_key : String
  initRaises : Bool
  initErr : String
  paste_image : Option DesignFile
  analysis_types : List String
  specific_elements : List String
  context : String
  runClicked : Bool
  tempDir : String
  uuidGen : Nat → String
  visionOutcome : CallOutcome
  uxOutcome : CallOutcome

/-- The `RunConfig` the button handler sees, assembled from the widget
values of a script execution. -/
def cfgOf (inp : ScriptInput) : RunConfig :=
  { analysis_types := inp.analysis_types,
    specific_elements := inp.specific_elements,
    context := inp.context,
    tempDir := inp.tempDir,
    uuidGen := inp.uuidGen,
    visionOutcome := inp.visionOutcome,
    uxOutcome := inp.uxOutcome }

/-- Result of one script execution: either the script runs to completion
with a trace of events, or a Python exception escapes every handler and the
script run dies with the events rendered up to that point. -/
inductive ScriptResult where
  | ok (events : List Event)
  | uncaught (events : List Event) (msg : String)

/-- The API-key guidance markdown of the sidebar (lines 69-72). -/
def apiKeyGuidance : String :=
  "\n        To get your API key:\n        1. Go to [Google AI Studio](https://makersuite.google.com/app/apikey)\n        "

/-- The sidebar (lines 47-72): header, then either the success message or
the warning plus the API-key guidance, by truthiness of the credential. -/
def sidebarEvents (api_key : String) : List Event :=
  Event.headerE "🔑 API Configuration" ::
  (if api_key = "" then
    [Event.warning "Please enter your API key to proceed",
     Event.markdownE apiKeyGuidance]
  else [Event.successMsg "API Key provided! ✅"])

/-- The footer (lines 212-222): a rule and the usage-tips HTML block. -/
def footerEvents : List Event :=
  [Event.markdownE "---",
   Event.markdownE "\n<div style=\x27text-align: center\x27>\n    <h4>Tips for Best Results</h4>\n    <p>\n    • Upload clear, high-resolution images<br>\n    • Provide specific context about your target audience\n    </p>\n</div>\n"]

/-- The "please enter your API key" info line (lines 208 and 210). -/
def missingKeyInfo : Event :=
  Event.info "👈 Please enter your API key in the sidebar to get started"

/-- The main body after `st.header` (lines 77-210): when the session
credential is truthy, call `init_agents` and unpack its returned tuple into
exactly two variables (lines 78-79).  A returned tuple of any other arity
makes that unpacking raise an uncaught ValueError, which no handler in the
script catches.  On a successful 2-unpack, `all([vision_agent, ux_agent])`
gates the upload form, the configuration widgets, and the run button. -/
def mainBody (inp : ScriptInput) (evs0 : List Event) : ScriptResult :=
  let r := init_agents inp.api_key inp.initRaises inp.initErr
  let evs1 := evs0 ++ r.1
  match r.2 with
  | [vision_agent, ux_agent] =>
    match vision_agent, ux_agent with
    | some va, some ua =>
      let evs2 := evs1 ++
        [Event.subheaderE "📤 Upload Design",
         Event.buttonShown "📋 Paste an Image"] ++
        (match inp.paste_image with
         | some _ => [Event.imageShown]
         | none => []) ++
        [Event.subheaderE "🎯 Configuration"]
      let dfiles := design_files_of inp.paste_image
      let evs3 :=
        if inp.runClicked then evs2 ++ run_analysis (cfgOf inp) va ua dfiles
        else evs2
      ScriptResult.ok (evs3 ++ footerEvents)
    | _, _ => ScriptResult.ok (evs1 ++ [missingKeyInfo] ++ footerEvents)
  | _ =>
    ScriptResult.uncaught evs1
      "ValueError: too many values to unpack (expected 2)"

/-- One top-to-bottom execution of the script (lines 47-222): sidebar, page
header, then the main body or the missing-key info line, then the footer. -/
def script (inp : ScriptInput) : ScriptResult :=
  let evs0 := sidebarEvents inp.api_key ++
    [Event.headerE "Multimodal AI Design Agent Team"]
  if inp.api_key = "" then
    ScriptResult.ok (evs0 ++ [missingKeyInfo] ++ footerEvents)
  else
    mainBody inp evs0

/-- The remote agent calls of a trace, in order: the agent called, the
message, and the image paths passed. -/
def remoteCalls (evs : List Event) : List (Agent × String × List String) :=
  evs.filterMap fun e =>
    match e with
    | Event.remoteCall a m is => some (a, m, is)
    | _ => none

/-- The temporary-file write paths of a trace, in order. -/
def fsWrites (evs : List Event) : List String :=
  evs.filterMap fun e =>
    match e with
    | Event.fsWrite p => some p
    | _ => none

/-- The events of a script result, whether or not the run died. -/
def eventsOf (r : ScriptResult) : List Event :=
  match r with
  | ScriptResult.ok evs => evs
  | ScriptResult.uncaught evs _ => evs

/-! ### Concrete inputs used by witnesses and counterexamples -/

/-- A nominal script input: non-empty credential, successful agent
construction, the default widget selections, the Run Analysis button
pressed, both remote calls succeeding. -/
def baseIn : ScriptInput :=
  { api_key := "key", initRaises := false, initErr := "",
    paste_image := none,
    analysis_types := ["User Experience"],
    specific_elements := ["Interactions"], context := "",
    runClicked := true, tempDir := "/tmp",
    uuidGen := fun i => "uuid" ++ toString i,
    visionOutcome := CallOutcome.ok "vision result",
    uxOutcome := CallOutcome.ok "ux result" }

/-- A design asset whose conversion succeeds. -/
def fileOK : DesignFile := { name := "shot.png", conversionFails := false, convMsg := "" }

/-- A design asset whose conversion raises. -/
def fileBad : DesignFile := { name := "bad.png", conversionFails := true, convMsg := "boom" }

/-- A script input on which agent construction raises. -/
def c3In : ScriptInput := { baseIn with initRaises := true, initErr := "bad credential" }

/-- A run configuration with both categories selected whose Visual Design
remote call raises. -/
def c2Cfg : RunConfig :=
  { cfgOf baseIn with
    analysis_types := ["Visual Design", "User Experience"],
    visionOutcome := CallOutcome.raise "network down" }

/-- A run configuration with only the default User Experience category
selected whose User Experience remote call raises. -/
def c2UxCfg : RunConfig :=
  { cfgOf baseIn with uxOutcome := CallOutcome.raise "network down" }

/-- A run configuration with both categories selected and both remote calls
succeeding. -/
def c4Cfg : RunConfig :=
  { cfgOf baseIn with analysis_types := ["Visual Design", "User Experience"] }

/-- A script input with one pasted asset that converts and Visual Design as
the single selected category. -/
def c5In : ScriptInput :=
  { baseIn with paste_image := some fileOK, analysis_types := ["Visual Design"] }

/-- A script input with one pasted asset whose conversion fails and Visual
Design as the single selected category. -/
def c5BadIn : ScriptInput :=
  { baseIn with paste_image := some fileBad, analysis_types := ["Visual Design"] }

/-! ### Basic lemmas about traces and `process_images` -/

theorem remoteCalls_append (a b : List Event) :
    remoteCalls (a ++ b) = remoteCalls a ++ remoteCalls b :=
  List.filterMap_append a b _

theorem fsWrites_append (a b : List Event) :
    fsWrites (a ++ b) = fsWrites a ++ fsWrites b :=
  List.filterMap_append a b _

/-- Full characterization of the `process_images` loop from position `i`:
every file yields exactly one event (its inline error on conversion failure,
the write of its temporary PNG on success), and the collected paths are the
temp paths of the successful files, each named by the uuid drawn at its
position. -/
theorem process_images_from_eq (tempDir : String) (g : Nat → String) :
    ∀ (i : Nat) (files : List DesignFile),
    process_images_from tempDir g i files =
      ((files.enumFrom i).map fun p =>
        if p.2.conversionFails then
          Event.errorMsg ("Error processing image " ++ p.2.name ++ ": " ++ p.2.convMsg)
        else Event.fsWrite (temp_path tempDir (g p.1)),
       (files.enumFrom i).filterMap fun p =>
        if p.2.conversionFails then none
        else some (temp_path tempDir (g p.1))) := by
  intro i files
  induction files generalizing i with
  | nil => rfl
  | cons f fs ih =>
    simp only [process_images_from, processOne, List.enumFrom_cons, List.map_cons,
      List.filterMap_cons, ih (i + 1)]
    by_cases h : f.conversionFails <;> simp [h]

theorem process_images_eq (tempDir : String) (g : Nat → String)
    (files : List DesignFile) :
    process_images tempDir g files =
      ((files.enumFrom 0).map fun p =>
        if p.2.conversionFails then
          Event.errorMsg ("Error processing image " ++ p.2.name ++ ": " ++ p.2.convMsg)
        else Event.fsWrite (temp_path tempDir (g p.1)),
       (files.enumFrom 0).filterMap fun p =>
        if p.2.conversionFails then none
        else some (temp_path tempDir (g p.1))) :=
  process_images_from_eq tempDir g 0 files

/-- The image-conversion loop makes no remote call. -/
theorem remoteCalls_process_images (tempDir : String) (g : Nat → String)
    (files : List DesignFile) :
    remoteCalls (process_images tempDir g files).1 = [] := by
  rw [process_images_eq]
  simp only [remoteCalls, List.filterMap_map]
  apply List.filterMap_eq_nil_iff.2
  intro p _
  by_cases h : p.2.conversionFails <;> simp [h, Function.comp]

theorem remoteCalls_sidebar (k : String) : remoteCalls (sidebarEvents k) = [] := by
  by_cases h : k = "" <;> simp [sidebarEvents, h, remoteCalls]

theorem remoteCalls_footer : remoteCalls footerEvents = [] := rfl

/-- On the nominal path (truthy credential, agent construction succeeds, the
Run Analysis button pressed) the script completes and its trace is the
sidebar, the page header, the upload form, the configuration form, the
button handler trace, and the footer. -/
theorem script_run_eq (inp : ScriptInput) (hkey : ¬ inp.api_key = "")
    (hinit : inp.initRaises = false) (hrun : inp.runClicked = true) :
    script inp = ScriptResult.ok
      (sidebarEvents inp.api_key ++
       [Event.headerE "Multimodal AI Design Agent Team",
        Event.subheaderE "📤 Upload Design",
        Event.buttonShown "📋 Paste an Image"] ++
       (match inp.paste_image with
        | some _ => [Event.imageShown]
        | none => []) ++
       [Event.subheaderE "🎯 Configuration"] ++
       run_analysis (cfgOf inp) (visionAgentOf inp.api_key)
         (uxAgentOf inp.api_key) (design_files_of inp.paste_image) ++
       footerEvents) := by
  simp [script, mainBody, init_agents, hkey, hinit, hrun]

/-- The number of converted paths is the number of assets whose conversion
succeeds. -/
theorem process_images_from_len (t : String) (g : Nat → String) :
    ∀ (i : Nat) (files : List DesignFile),
    (process_images_from t g i files).2.length =
      (files.filter fun f => !f.conversionFails).length := by
  intro i files
  induction files generalizing i with
  | nil => rfl
  | cons f fs ih =>
    by_cases h : f.conversionFails <;>
      simp [process_images_from, processOne, h, ih (i + 1), List.filter_cons]

/-- The temporary files the conversion loop writes are exactly the paths it
collects. -/
theorem fsWrites_process_images_from (t : String) (g : Nat → String) :
    ∀ (i : Nat) (files : List DesignFile),
    fsWrites (process_images_from t g i files).1 =
      (process_images_from t g i files).2 := by
  intro i files
  induction files generalizing i with
  | nil => rfl
  | cons f fs ih =>
    have h2 := ih (i + 1)
    by_cases h : f.conversionFails <;>
      simp_all [process_images_from, processOne, fsWrites]

/-- The conversion loop renders the inline error of a failing asset. -/
theorem error_mem_process_images_from (t : String) (g : Nat → String)
    (bad : DesignFile) (hbad : bad.conversionFails = true) :
    ∀ (i : Nat) (a b : List DesignFile),
    Event.errorMsg ("Error processing image " ++ bad.name ++ ": " ++ bad.convMsg) ∈
      (process_images_from t g i (a ++ bad :: b)).1 := by
  intro i a
  induction a generalizing i with
  | nil =>
    intro b
    simp [process_images_from, processOne, hbad]
  | cons x xs ih =>
    intro b
    simp only [List.cons_append, process_images_from, List.mem_append]
    exact Or.inr (ih (i + 1) b)

/-- The conversion loop renders no warning. -/
theorem warning_not_mem_process_images (t : String) (g : Nat → String)
    (files : List DesignFile) (w : String) :
    Event.warning w ∉ (process_images t g files).1 := by
  rw [process_images_eq]
  simp only [List.mem_map, not_exists, not_and]
  intro p _
  by_cases h : p.2.conversionFails <;> simp [h]

/-- The conversion loop writes no temporary file for a failing asset: with
every conversion failing, no path is collected. -/
theorem process_images_urls_nil (t : String) (g : Nat → String)
    (files : List DesignFile) (hall : ∀ f ∈ files, f.conversionFails = true) :
    (process_images t g files).2 = [] := by
  rw [← List.length_eq_zero, process_images, process_images_from_len]
  rw [List.length_eq_zero, List.filter_eq_nil_iff]
  intro f hf
  simp [hall f hf]

/-- Whatever the outcomes, the handler trace of a non-empty asset list
starts with the conversion-loop trace. -/
theorem run_analysis_starts_with_process (cfg : RunConfig) (va ua : Agent)
    (files : List DesignFile) (h : files.isEmpty = false) :
    ∃ rest, run_analysis cfg va ua files =
      (process_images cfg.tempDir cfg.uuidGen files).1 ++ rest := by
  simp only [run_analysis, tryBody, h, Bool.false_eq_true, if_false]
  cases (visionBlock cfg va files (process_images cfg.tempDir cfg.uuidGen files).2).2 with
  | some msg =>
    exact ⟨(visionBlock cfg va files (process_images cfg.tempDir cfg.uuidGen files).2).1 ++
      [Event.errorMsg ("An error occurred during analysis: " ++ msg),
       Event.errorMsg "Please check your API key and try again."], by simp⟩
  | none =>
    cases (uxBlock cfg ua (process_images cfg.tempDir cfg.uuidGen files).2).2 with
    | some msg =>
      exact ⟨(visionBlock cfg va files (process_images cfg.tempDir cfg.uuidGen files).2).1 ++
        (uxBlock cfg ua (process_images cfg.tempDir cfg.uuidGen files).2).1 ++
        [Event.errorMsg ("An error occurred during analysis: " ++ msg),
         Event.errorMsg "Please check your API key and try again."], by simp⟩
    | none =>
      exact ⟨(visionBlock cfg va files (process_images cfg.tempDir cfg.uuidGen files).2).1 ++
        (uxBlock cfg ua (process_images cfg.tempDir cfg.uuidGen files).2).1 ++
        takeawaysBlock cfg.analysis_types, by simp⟩

/-- Every call the Visual Design block makes passes exactly the converted
paths. -/
theorem remoteCalls_visionBlock_sub (cfg : RunConfig) (va : Agent)
    (files : List DesignFile) (urls : List String) :
    ∀ c ∈ remoteCalls (visionBlock cfg va files urls).1, c.2.2 = urls := by
  by_cases hmem : "Visual Design" ∈ cfg.analysis_types <;>
    by_cases hne : files = [] <;>
    by_cases h2 : urls.isEmpty = true <;>
    cases ho : cfg.visionOutcome <;>
    simp [visionBlock, hmem, hne, h2, ho, remoteCalls]

/-- Every call the User Experience block makes passes exactly the converted
paths. -/
theorem remoteCalls_uxBlock_sub (cfg : RunConfig) (ua : Agent)
    (urls : List String) :
    ∀ c ∈ remoteCalls (uxBlock cfg ua urls).1, c.2.2 = urls := by
  by_cases hmem : "User Experience" ∈ cfg.analysis_types <;>
    by_cases h2 : urls.isEmpty = true <;>
    cases ho : cfg.uxOutcome <;>
    simp [uxBlock, hmem, h2, ho, remoteCalls]

/-- Every remote call of one button press passes exactly the converted
paths of that press. -/
theorem remoteCalls_run_sub (cfg : RunConfig) (va ua : Agent)
    (files : List DesignFile) (h : files.isEmpty = false) :
    ∀ c ∈ remoteCalls (run_analysis cfg va ua files),
      c.2.2 = (process_images cfg.tempDir cfg.uuidGen files).2 := by
  simp only [run_analysis, tryBody, h, Bool.false_eq_true, if_false]
  cases (visionBlock cfg va files (process_images cfg.tempDir cfg.uuidGen files).2).2 with
  | some msg =>
    intro c hc
    rw [remoteCalls_append, remoteCalls_append, remoteCalls_process_images] at hc
    simp only [List.nil_append, List.mem_append] at hc
    rcases hc with hc | hc
    · exact remoteCalls_visionBlock_sub cfg va files _ c hc
    · exact absurd hc (by simp [remoteCalls])
  | none =>
    cases (uxBlock cfg ua (process_images cfg.tempDir cfg.uuidGen files).2).2 with
    | some msg =>
      intro c hc
      rw [remoteCalls_append, remoteCalls_append, remoteCalls_append,
        remoteCalls_process_images] at hc
      simp only [List.nil_append, List.mem_append] at hc
      rcases hc with (hc | hc) | hc
      · exact remoteCalls_visionBlock_sub cfg va files _ c hc
      · exact remoteCalls_uxBlock_sub cfg ua _ c hc
      · exact absurd hc (by simp [remoteCalls])
    | none =>
      intro c hc
      rw [remoteCalls_append, remoteCalls_append, remoteCalls_append,
        remoteCalls_process_images] at hc
      simp only [List.nil_append, List.mem_append] at hc
      rcases hc with (hc | hc) | hc
      · exact remoteCalls_visionBlock_sub cfg va files _ c hc
      · exact remoteCalls_uxBlock_sub cfg ua _ c hc
      · exact absurd hc (by simp [takeawaysBlock, apply_ite, remoteCalls])

/-- A list containing two distinct elements has more than one element. -/
theorem one_lt_length_of_two_mem {l : List String} {a b : String}
    (ha : a ∈ l) (hb : b ∈ l) (hab : a ≠ b) : 1 < l.length := by
  match l with
  | [] => cases ha
  | [x] =>
    simp only [List.mem_singleton] at ha hb
    exact absurd (ha.trans hb.symm) hab
  | x :: y :: t => simp only [List.length_cons]; omega

/-- With an empty credential the script completes with the fixed
missing-credential trace. -/
theorem script_empty_key_eq (inp : ScriptInput) (hkey : inp.api_key = "") :
    script inp = ScriptResult.ok
      ([Event.headerE "🔑 API Configuration",
        Event.warning "Please enter your API key to proceed",
        Event.markdownE apiKeyGuidance,
        Event.headerE "Multimodal AI Design Agent Team",
        missingKeyInfo] ++ footerEvents) := by
  simp [script, sidebarEvents, hkey]

/-- With a truthy credential, successful agent construction and the run
button not pressed, the script completes with the form trace alone. -/
theorem script_not_run_eq (inp : ScriptInput) (hkey : ¬ inp.api_key = "")
    (hinit : inp.initRaises = false) (hrun : inp.runClicked = false) :
    script inp = ScriptResult.ok
      (sidebarEvents inp.api_key ++
       [Event.headerE "Multimodal AI Design Agent Team",
        Event.subheaderE "📤 Upload Design",
        Event.buttonShown "📋 Paste an Image"] ++
       (match inp.paste_image with
        | some _ => [Event.imageShown]
        | none => []) ++
       [Event.subheaderE "🎯 Configuration"] ++ footerEvents) := by
  simp [script, mainBody, init_agents, hkey, hinit, hrun]

/-- Whenever agent construction does not raise, the script run completes
normally: no exception escapes, so the session stays usable. -/
theorem script_ok_of_init_ok (inp : ScriptInput) (hinit : inp.initRaises = false) :
    ∃ evs, script inp = ScriptResult.ok evs := by
  by_cases hk : inp.api_key = ""
  · exact ⟨_, script_empty_key_eq inp hk⟩
  · by_cases hr : inp.runClicked = true
    · exact ⟨_, script_run_eq inp hk hinit hr⟩
    · exact ⟨_, script_not_run_eq inp hk hinit (by simpa using hr)⟩

/-! ### C1 -/

/-- C1: for every invocation of the run-analysis action in which the
credential is non-empty and the design-asset list is empty, the handler
renders exactly the no-assets warning, and the whole script run makes zero
remote-agent calls. -/
theorem C1_no_assets_warning_only (inp : ScriptInput)
    (hkey : ¬ inp.api_key = "") (hinit : inp.initRaises = false)
    (hrun : inp.runClicked = true) (hpaste : inp.paste_image = none) :
    run_analysis (cfgOf inp) (visionAgentOf inp.api_key)
        (uxAgentOf inp.api_key) (design_files_of inp.paste_image) =
      [Event.warning "Please upload at least one design to analyze."] ∧
    remoteCalls (eventsOf (script inp)) = [] := by
  have h1 : design_files_of inp.paste_image = [] := by rw [hpaste]; rfl
  refine ⟨by rw [h1]; rfl, ?_⟩
  rw [script_run_eq inp hkey hinit hrun, hpaste]
  simp only [eventsOf, remoteCalls_append, remoteCalls_sidebar, List.nil_append]
  simp [remoteCalls, run_analysis, design_files_of, footerEvents]

/-- Witness for C1 at a concrete input. -/
theorem C1_no_assets_warning_only_witness :
    run_analysis (cfgOf baseIn) (visionAgentOf baseIn.api_key)
        (uxAgentOf baseIn.api_key) (design_files_of baseIn.paste_image) =
      [Event.warning "Please upload at least one design to analyze."] ∧
    remoteCalls (eventsOf (script baseIn)) = [] :=
  C1_no_assets_warning_only baseIn (by decide) rfl rfl rfl

/-! ### C2 -/

/-- C2: whichever remote call of a run raises — the Visual Design call
(when it is made: Visual Design selected, assets present, some asset
converted) or the User Experience call (when it is made: User Experience
selected, some asset converted, and the Visual Design block did not raise
first, being either unselected or successful) — the handler renders the
generic error plus the credential hint after the events so far, and the run
makes no remote call after the raising one: a raising Visual Design call
leaves exactly one call (no User Experience call follows), and a raising
User Experience call is the last call of its run.  Moreover every script
execution whose agent construction succeeds completes normally, so the
session remains usable for a subsequent attempt. -/
theorem C2_remote_error_aborts_run (cfg : RunConfig) (va ua : Agent)
    (files : List DesignFile) (msg : String)
    (hfiles : files ≠ [])
    (hconv : (process_images cfg.tempDir cfg.uuidGen files).2 ≠ []) :
    (cfg.visionOutcome = CallOutcome.raise msg →
     "Visual Design" ∈ cfg.analysis_types →
     (∃ pre, run_analysis cfg va ua files = pre ++
        [Event.errorMsg ("An error occurred during analysis: " ++ msg),
         Event.errorMsg "Please check your API key and try again."]) ∧
     remoteCalls (run_analysis cfg va ua files) =
       [(va, vision_prompt cfg.specific_elements cfg.context,
         (process_images cfg.tempDir cfg.uuidGen files).2)]) ∧
    (cfg.uxOutcome = CallOutcome.raise msg →
     "User Experience" ∈ cfg.analysis_types →
     ("Visual Design" ∉ cfg.analysis_types ∨
       ∃ c, cfg.visionOutcome = CallOutcome.ok c) →
     (∃ pre, run_analysis cfg va ua files = pre ++
        [Event.errorMsg ("An error occurred during analysis: " ++ msg),
         Event.errorMsg "Please check your API key and try again."]) ∧
     remoteCalls (run_analysis cfg va ua files) =
       (if "Visual Design" ∈ cfg.analysis_types then
         [(va, vision_prompt cfg.specific_elements cfg.context,
           (process_images cfg.tempDir cfg.uuidGen files).2)] else []) ++
       [(ua, ux_prompt cfg.specific_elements cfg.context,
         (process_images cfg.tempDir cfg.uuidGen files).2)]) ∧
    ∀ inp : ScriptInput, inp.initRaises = false →
      ∃ evs, script inp = ScriptResult.ok evs := by
  have hfe : files.isEmpty = false := by simpa using hfiles
  have hue : (process_images cfg.tempDir cfg.uuidGen files).2.isEmpty = false := by
    simpa using hconv
  refine ⟨?_, ?_, fun inp hinit => script_ok_of_init_ok inp hinit⟩
  · intro hout hsel
    have hrun : run_analysis cfg va ua files =
        (process_images cfg.tempDir cfg.uuidGen files).1 ++
        [Event.spinnerShown "🎨 Analyzing visual design...",
         Event.remoteCall va (vision_prompt cfg.specific_elements cfg.context)
           (process_images cfg.tempDir cfg.uuidGen files).2] ++
        [Event.errorMsg ("An error occurred during analysis: " ++ msg),
         Event.errorMsg "Please check your API key and try again."] := by
      simp [run_analysis, tryBody, visionBlock, hfe, hue, hsel, hfiles, hout]
    refine ⟨⟨_, hrun⟩, ?_⟩
    rw [hrun, remoteCalls_append, remoteCalls_append, remoteCalls_process_images]
    simp [remoteCalls]
  · intro hout hsel hprev
    by_cases hv : "Visual Design" ∈ cfg.analysis_types
    · have hvo : ∃ c, cfg.visionOutcome = CallOutcome.ok c := by
        rcases hprev with hv2 | hvo
        · exact absurd hv hv2
        · exact hvo
      obtain ⟨c, hvo⟩ := hvo
      have hrun : run_analysis cfg va ua files =
          (process_images cfg.tempDir cfg.uuidGen files).1 ++
          [Event.spinnerShown "🎨 Analyzing visual design...",
           Event.remoteCall va (vision_prompt cfg.specific_elements cfg.context)
             (process_images cfg.tempDir cfg.uuidGen files).2,
           Event.subheaderE "🎨 Visual Design Analysis", Event.markdownE c] ++
          [Event.spinnerShown "🔄 Analyzing user experience...",
           Event.remoteCall ua (ux_prompt cfg.specific_elements cfg.context)
             (process_images cfg.tempDir cfg.uuidGen files).2] ++
          [Event.errorMsg ("An error occurred during analysis: " ++ msg),
           Event.errorMsg "Please check your API key and try again."] := by
        simp [run_analysis, tryBody, visionBlock, uxBlock, hfe, hue, hv, hsel,
          hfiles, hvo, hout]
      refine ⟨⟨_, hrun⟩, ?_⟩
      rw [hrun, remoteCalls_append, remoteCalls_append, remoteCalls_append,
        remoteCalls_process_images]
      simp [remoteCalls, hv]
    · have hrun : run_analysis cfg va ua files =
          (process_images cfg.tempDir cfg.uuidGen files).1 ++
          [Event.spinnerShown "🔄 Analyzing user experience...",
           Event.remoteCall ua (ux_prompt cfg.specific_elements cfg.context)
             (process_images cfg.tempDir cfg.uuidGen files).2] ++
          [Event.errorMsg ("An error occurred during analysis: " ++ msg),
           Event.errorMsg "Please check your API key and try again."] := by
        simp [run_analysis, tryBody, visionBlock, uxBlock, hfe, hue, hv, hsel,
          hfiles, hout]
      refine ⟨⟨_, hrun⟩, ?_⟩
      rw [hrun, remoteCalls_append, remoteCalls_append, remoteCalls_process_images]
      simp [remoteCalls, hv]

/-- Witness for C2 at concrete inputs, exercising both raising calls: the
Visual Design call raising with both categories selected, and the User
Experience call raising in the default single-category configuration. -/
theorem C2_remote_error_aborts_run_witness :
    ((∃ pre, run_analysis c2Cfg (visionAgentOf "key") (uxAgentOf "key") [fileOK] = pre ++
        [Event.errorMsg ("An error occurred during analysis: " ++ "network down"),
         Event.errorMsg "Please check your API key and try again."]) ∧
     remoteCalls (run_analysis c2Cfg (visionAgentOf "key") (uxAgentOf "key") [fileOK]) =
       [(visionAgentOf "key", vision_prompt c2Cfg.specific_elements c2Cfg.context,
         (process_images c2Cfg.tempDir c2Cfg.uuidGen [fileOK]).2)]) ∧
    ((∃ pre, run_analysis c2UxCfg (visionAgentOf "key") (uxAgentOf "key") [fileOK] = pre ++
        [Event.errorMsg ("An error occurred during analysis: " ++ "network down"),
         Event.errorMsg "Please check your API key and try again."]) ∧
     remoteCalls (run_analysis c2UxCfg (visionAgentOf "key") (uxAgentOf "key") [fileOK]) =
       (if "Visual Design" ∈ c2UxCfg.analysis_types then
         [(visionAgentOf "key", vision_prompt c2UxCfg.specific_elements c2UxCfg.context,
           (process_images c2UxCfg.tempDir c2UxCfg.uuidGen [fileOK]).2)] else []) ++
       [(uxAgentOf "key", ux_prompt c2UxCfg.specific_elements c2UxCfg.context,
         (process_images c2UxCfg.tempDir c2UxCfg.uuidGen [fileOK]).2)]) ∧
    ∀ inp : ScriptInput, inp.initRaises = false →
      ∃ evs, script inp = ScriptResult.ok evs :=
  ⟨(C2_remote_error_aborts_run c2Cfg (visionAgentOf "key") (uxAgentOf "key")
      [fileOK] "network down" (by decide) (by decide)).1 rfl (by decide),
   (C2_remote_error_aborts_run c2UxCfg (visionAgentOf "key") (uxAgentOf "key")
      [fileOK] "network down" (by decide) (by decide)).2.1 rfl (by decide)
      (Or.inl (by decide)),
   (C2_remote_error_aborts_run c2UxCfg (visionAgentOf "key") (uxAgentOf "key")
      [fileOK] "network down" (by decide) (by decide)).2.2⟩

/-! ### C3 -/

/-- C3 is refuted by the code: when `initialize_agents` catches an
exception it returns the 3-tuple `(None, None, None)` while its caller
unpacks exactly two variables, so the unpacking itself raises an uncaught
ValueError and the script run dies instead of recovering at the action
boundary.  At a concrete input with a truthy credential and a failing
agent construction, the script result is `uncaught`, and the tuple returned
by `init_agents` indeed has three components. -/
theorem C3_init_failure_unpack_uncaught :
    script c3In = ScriptResult.uncaught
      (sidebarEvents "key" ++
       [Event.headerE "Multimodal AI Design Agent Team",
        Event.errorMsg "Error initializing agents: bad credential"])
      "ValueError: too many values to unpack (expected 2)" ∧
    (init_agents c3In.api_key c3In.initRaises c3In.initErr).2.length = 3 :=
  ⟨rfl, rfl⟩

/-! ### C4 -/

/-- C4 as stated is false on the code: with one design asset (whose
conversion fails) and both categories selected, the run makes zero remote
calls, not exactly two. -/
theorem C4_counterexample_zero_calls :
    [fileBad] ≠ ([] : List DesignFile) ∧
    "Visual Design" ∈ c4Cfg.analysis_types ∧
    "User Experience" ∈ c4Cfg.analysis_types ∧
    remoteCalls (run_analysis c4Cfg (visionAgentOf "key") (uxAgentOf "key")
      [fileBad]) = [] ∧
    (remoteCalls (run_analysis c4Cfg (visionAgentOf "key") (uxAgentOf "key")
      [fileBad])).length ≠ 2 := by
  refine ⟨by decide, by decide, by decide, by decide, by decide⟩

/-- C4 amended: with at least one design asset, both categories selected,
at least one asset whose conversion succeeds, and both remote calls
succeeding, exactly two remote calls are made — the Visual Design call
strictly before the User Experience call — and the combined-summary block
is rendered after both. -/
theorem C4_two_calls_in_order (cfg : RunConfig) (va ua : Agent)
    (files : List DesignFile) (cv cu : String)
    (hv : "Visual Design" ∈ cfg.analysis_types)
    (hu : "User Experience" ∈ cfg.analysis_types)
    (hfiles : files ≠ [])
    (hconv : (process_images cfg.tempDir cfg.uuidGen files).2 ≠ [])
    (hvo : cfg.visionOutcome = CallOutcome.ok cv)
    (huo : cfg.uxOutcome = CallOutcome.ok cu) :
    remoteCalls (run_analysis cfg va ua files) =
      [(va, vision_prompt cfg.specific_elements cfg.context,
        (process_images cfg.tempDir cfg.uuidGen files).2),
       (ua, ux_prompt cfg.specific_elements cfg.context,
        (process_images cfg.tempDir cfg.uuidGen files).2)] ∧
    ∃ pre, run_analysis cfg va ua files =
      pre ++ [Event.subheaderE "🎯 Key Takeaways", Event.info takeawaysText] ∧
      remoteCalls (run_analysis cfg va ua files) = remoteCalls pre := by
  have hfe : files.isEmpty = false := by simpa using hfiles
  have hue : (process_images cfg.tempDir cfg.uuidGen files).2.isEmpty = false := by
    simpa using hconv
  have hlen : 1 < cfg.analysis_types.length :=
    one_lt_length_of_two_mem hv hu (by decide)
  have hrun : run_analysis cfg va ua files =
      ((process_images cfg.tempDir cfg.uuidGen files).1 ++
       [Event.spinnerShown "🎨 Analyzing visual design...",
        Event.remoteCall va (vision_prompt cfg.specific_elements cfg.context)
          (process_images cfg.tempDir cfg.uuidGen files).2,
        Event.subheaderE "🎨 Visual Design Analysis", Event.markdownE cv] ++
       [Event.spinnerShown "🔄 Analyzing user experience...",
        Event.remoteCall ua (ux_prompt cfg.specific_elements cfg.context)
          (process_images cfg.tempDir cfg.uuidGen files).2,
        Event.subheaderE "🔄 UX Analysis", Event.markdownE cu]) ++
      [Event.subheaderE "🎯 Key Takeaways", Event.info takeawaysText] := by
    simp [run_analysis, tryBody, visionBlock, uxBlock, takeawaysBlock,
      hfe, hue, hv, hu, hfiles, hvo, huo, hlen]
  have hcalls : remoteCalls (run_analysis cfg va ua files) =
      [(va, vision_prompt cfg.specific_elements cfg.context,
        (process_images cfg.tempDir cfg.uuidGen files).2),
       (ua, ux_prompt cfg.specific_elements cfg.context,
        (process_images cfg.tempDir cfg.uuidGen files).2)] := by
    rw [hrun, remoteCalls_append, remoteCalls_append, remoteCalls_append,
      remoteCalls_process_images]
    simp [remoteCalls]
  refine ⟨hcalls, _, hrun, ?_⟩
  rw [hcalls, remoteCalls_append, remoteCalls_append, remoteCalls_process_images]
  simp [remoteCalls]

/-- Witness for the amended C4 at a concrete input. -/
theorem C4_two_calls_in_order_witness :
    remoteCalls (run_analysis c4Cfg (visionAgentOf "key") (uxAgentOf "key") [fileOK]) =
      [(visionAgentOf "key", vision_prompt c4Cfg.specific_elements c4Cfg.context,
        (process_images c4Cfg.tempDir c4Cfg.uuidGen [fileOK]).2),
       (uxAgentOf "key", ux_prompt c4Cfg.specific_elements c4Cfg.context,
        (process_images c4Cfg.tempDir c4Cfg.uuidGen [fileOK]).2)] ∧
    ∃ pre, run_analysis c4Cfg (visionAgentOf "key") (uxAgentOf "key") [fileOK] =
      pre ++ [Event.subheaderE "🎯 Key Takeaways", Event.info takeawaysText] ∧
      remoteCalls (run_analysis c4Cfg (visionAgentOf "key") (uxAgentOf "key") [fileOK]) =
        remoteCalls pre :=
  C4_two_calls_in_order c4Cfg (visionAgentOf "key") (uxAgentOf "key") [fileOK]
    "vision result" "ux result" (by decide) (by decide) (by decide) (by decide) rfl rfl

/-! ### C5 -/

/-- C5 as stated is false on the code: with one design asset (whose
conversion fails) and exactly one selected category, the run makes zero
remote calls, not exactly one. -/
theorem C5_counterexample_zero_calls :
    (design_files_of c5BadIn.paste_image).length = 1 ∧
    "Visual Design" ∈ c5BadIn.analysis_types ∧
    "User Experience" ∉ c5BadIn.analysis_types ∧
    remoteCalls (eventsOf (script c5BadIn)) = [] ∧
    (remoteCalls (eventsOf (script c5BadIn))).length ≠ 1 := by
  refine ⟨by decide, by decide, by decide, by decide, by decide⟩

/-- C5 amended: with one pasted design asset whose conversion succeeds and
exactly one selected category, exactly one remote call is made, and it is
bound to the agent whose instruction preamble matches the selected category
(visual-analysis preamble for Visual Design, UX-analysis preamble for User
Experience). -/
theorem C5_single_call_correct_binding (inp : ScriptInput) (f : DesignFile)
    (hkey : ¬ inp.api_key = "") (hinit : inp.initRaises = false)
    (hrun : inp.runClicked = true)
    (hpaste : inp.paste_image = some f) (hconv : f.conversionFails = false) :
    ("Visual Design" ∈ inp.analysis_types →
     "User Experience" ∉ inp.analysis_types →
     remoteCalls (eventsOf (script inp)) =
       [(visionAgentOf inp.api_key,
         vision_prompt inp.specific_elements inp.context,
         [temp_path inp.tempDir (inp.uuidGen 0)])] ∧
     (visionAgentOf inp.api_key).instructions.head? =
       some "You are a visual analysis expert that:") ∧
    ("Visual Design" ∉ inp.analysis_types →
     "User Experience" ∈ inp.analysis_types →
     remoteCalls (eventsOf (script inp)) =
       [(uxAgentOf inp.api_key,
         ux_prompt inp.specific_elements inp.context,
         [temp_path inp.tempDir (inp.uuidGen 0)])] ∧
     (uxAgentOf inp.api_key).instructions.head? =
       some "You are a UX analysis expert that:") := by
  have hp : process_images inp.tempDir inp.uuidGen [f] =
      ([Event.fsWrite (temp_path inp.tempDir (inp.uuidGen 0))],
       [temp_path inp.tempDir (inp.uuidGen 0)]) := by
    simp [process_images, process_images_from, processOne, hconv]
  have hE : remoteCalls (eventsOf (script inp)) =
      remoteCalls (run_analysis (cfgOf inp) (visionAgentOf inp.api_key)
        (uxAgentOf inp.api_key) [f]) := by
    rw [script_run_eq inp hkey hinit hrun, hpaste]
    simp only [eventsOf, design_files_of]
    rw [remoteCalls_append, remoteCalls_append, remoteCalls_append,
      remoteCalls_append, remoteCalls_append, remoteCalls_sidebar, remoteCalls_footer]
    simp [remoteCalls]
  constructor
  · intro hv hu
    refine ⟨?_, rfl⟩
    rw [hE]
    cases ho : inp.visionOutcome with
    | ok c =>
      simp [run_analysis, tryBody, visionBlock, uxBlock, cfgOf, hp, ho, hv, hu,
        takeawaysBlock, apply_ite, remoteCalls_append, remoteCalls]
    | raise msg =>
      simp [run_analysis, tryBody, visionBlock, uxBlock, cfgOf, hp, ho, hv, hu,
        takeawaysBlock, apply_ite, remoteCalls_append, remoteCalls]
  · intro hv hu
    refine ⟨?_, rfl⟩
    rw [hE]
    cases ho : inp.uxOutcome with
    | ok c =>
      simp [run_analysis, tryBody, visionBlock, uxBlock, cfgOf, hp, ho, hv, hu,
        takeawaysBlock, apply_ite, remoteCalls_append, remoteCalls]
    | raise msg =>
      simp [run_analysis, tryBody, visionBlock, uxBlock, cfgOf, hp, ho, hv, hu,
        takeawaysBlock, apply_ite, remoteCalls_append, remoteCalls]

/-- Witness for the amended C5 at a concrete input (Visual Design only). -/
theorem C5_single_call_correct_binding_witness :
    remoteCalls (eventsOf (script c5In)) =
      [(visionAgentOf c5In.api_key,
        vision_prompt c5In.specific_elements c5In.context,
        [temp_path c5In.tempDir (c5In.uuidGen 0)])] ∧
    (visionAgentOf c5In.api_key).instructions.head? =
      some "You are a visual analysis expert that:" :=
  (C5_single_call_correct_binding c5In fileOK (by decide) rfl rfl rfl rfl).1
    (by decide) (by decide)

/-! ### C6 -/

/-- A remote-call event membership gives a `remoteCalls` membership. -/
theorem mem_remoteCalls_of_mem {evs : List Event} {a : Agent} {m : String}
    {is : List String} (h : Event.remoteCall a m is ∈ evs) :
    (a, m, is) ∈ remoteCalls evs := by
  simp only [remoteCalls, List.mem_filterMap]
  exact ⟨_, h, rfl⟩

/-- When Visual Design is selected, the asset list is non-empty and some
asset converted, the Visual Design block contains its remote-call event,
whatever the call outcome. -/
theorem vision_call_mem_block (cfg : RunConfig) (va : Agent)
    (files : List DesignFile) (urls : List String)
    (hv : "Visual Design" ∈ cfg.analysis_types) (hf : files ≠ [])
    (hu : urls ≠ []) :
    Event.remoteCall va (vision_prompt cfg.specific_elements cfg.context) urls ∈
      (visionBlock cfg va files urls).1 := by
  have hue : urls.isEmpty = false := by simpa using hu
  cases ho : cfg.visionOutcome <;> simp [visionBlock, hv, hf, hue, ho]

/-- When User Experience is selected and some asset converted, the User
Experience block contains its remote-call event, whatever the call
outcome. -/
theorem ux_call_mem_block (cfg : RunConfig) (ua : Agent) (urls : List String)
    (hu : "User Experience" ∈ cfg.analysis_types) (hune : urls ≠ []) :
    Event.remoteCall ua (ux_prompt cfg.specific_elements cfg.context) urls ∈
      (uxBlock cfg ua urls).1 := by
  have hue : urls.isEmpty = false := by simpa using hune
  cases ho : cfg.uxOutcome <;> simp [uxBlock, hu, hue, ho]

/-- Events of the Visual Design block are events of the run. -/
theorem visionBlock_events_mem_run (cfg : RunConfig) (va ua : Agent)
    (files : List DesignFile) (h : files.isEmpty = false) (e : Event)
    (he : e ∈ (visionBlock cfg va files
      (process_images cfg.tempDir cfg.uuidGen files).2).1) :
    e ∈ run_analysis cfg va ua files := by
  simp only [run_analysis, tryBody, h, Bool.false_eq_true, if_false]
  cases (visionBlock cfg va files (process_images cfg.tempDir cfg.uuidGen files).2).2 with
  | some msg => simp [he]
  | none =>
    cases (uxBlock cfg ua (process_images cfg.tempDir cfg.uuidGen files).2).2 with
    | some msg => simp [he]
    | none => simp [he]

/-- When the Visual Design block raises no exception, events of the User
Experience block are events of the run. -/
theorem uxBlock_events_mem_run (cfg : RunConfig) (va ua : Agent)
    (files : List DesignFile) (h : files.isEmpty = false)
    (hvnone : (visionBlock cfg va files
      (process_images cfg.tempDir cfg.uuidGen files).2).2 = none) (e : Event)
    (he : e ∈ (uxBlock cfg ua
      (process_images cfg.tempDir cfg.uuidGen files).2).1) :
    e ∈ run_analysis cfg va ua files := by
  simp only [run_analysis, tryBody, h, Bool.false_eq_true, if_false, hvnone]
  cases (uxBlock cfg ua (process_images cfg.tempDir cfg.uuidGen files).2).2 with
  | some msg => simp [he]
  | none => simp [he]

/-- C6: with N ≥ 2 design assets of which exactly one fails to convert and
at least one category selected, the conversion loop reports that asset's
inline error and skips it, the remaining N−1 assets are converted, at least
one remote call is made, and every remote call of the run passes exactly
those N−1 converted asset references. -/
theorem C6_failed_asset_skipped (cfg : RunConfig) (va ua : Agent)
    (a b : List DesignFile) (bad : DesignFile)
    (hbad : bad.conversionFails = true)
    (hok : ∀ f ∈ a ++ b, f.conversionFails = false)
    (hN : a ++ b ≠ [])
    (hsel : "Visual Design" ∈ cfg.analysis_types ∨
            "User Experience" ∈ cfg.analysis_types) :
    Event.errorMsg ("Error processing image " ++ bad.name ++ ": " ++ bad.convMsg) ∈
      run_analysis cfg va ua (a ++ bad :: b) ∧
    (process_images cfg.tempDir cfg.uuidGen (a ++ bad :: b)).2.length =
      (a ++ bad :: b).length - 1 ∧
    remoteCalls (run_analysis cfg va ua (a ++ bad :: b)) ≠ [] ∧
    (∀ c ∈ remoteCalls (run_analysis cfg va ua (a ++ bad :: b)),
      c.2.2 = (process_images cfg.tempDir cfg.uuidGen (a ++ bad :: b)).2) := by
  have hfe : (a ++ bad :: b).isEmpty = false := by simp
  have hfa : (a.filter fun f => !f.conversionFails) = a :=
    List.filter_eq_self.mpr fun f hf => by
      simp [hok f (List.mem_append_left b hf)]
  have hfb : (b.filter fun f => !f.conversionFails) = b :=
    List.filter_eq_self.mpr fun f hf => by
      simp [hok f (List.mem_append_right a hf)]
  have hlen : (process_images cfg.tempDir cfg.uuidGen (a ++ bad :: b)).2.length =
      (a ++ bad :: b).length - 1 := by
    rw [process_images, process_images_from_len]
    simp [List.filter_append, List.filter_cons, hbad, hfa, hfb]
  have hune : (process_images cfg.tempDir cfg.uuidGen (a ++ bad :: b)).2 ≠ [] := by
    intro hnil
    rw [hnil] at hlen
    have h2 : (a ++ b).length ≠ 0 := by simpa using hN
    simp only [List.length_nil, List.length_append, List.length_cons] at hlen h2
    omega
  refine ⟨?_, hlen, ?_, remoteCalls_run_sub cfg va ua (a ++ bad :: b) hfe⟩
  · obtain ⟨rest, hr⟩ := run_analysis_starts_with_process cfg va ua (a ++ bad :: b) hfe
    rw [hr]
    exact List.mem_append_left rest (error_mem_process_images_from cfg.tempDir
      cfg.uuidGen bad hbad 0 a b)
  · rcases hsel with hv | hu
    · exact List.ne_nil_of_mem (mem_remoteCalls_of_mem
        (visionBlock_events_mem_run cfg va ua (a ++ bad :: b) hfe _
          (vision_call_mem_block cfg va (a ++ bad :: b) _ hv (by simp) hune)))
    · by_cases hv : "Visual Design" ∈ cfg.analysis_types
      · exact List.ne_nil_of_mem (mem_remoteCalls_of_mem
          (visionBlock_events_mem_run cfg va ua (a ++ bad :: b) hfe _
            (vision_call_mem_block cfg va (a ++ bad :: b) _ hv (by simp) hune)))
      · have hvnone : (visionBlock cfg va (a ++ bad :: b)
            (process_images cfg.tempDir cfg.uuidGen (a ++ bad :: b)).2).2 = none := by
          simp [visionBlock, hv]
        exact List.ne_nil_of_mem (mem_remoteCalls_of_mem
          (uxBlock_events_mem_run cfg va ua (a ++ bad :: b) hfe hvnone _
            (ux_call_mem_block cfg ua _ hu hune)))

/-- Witness for C6 at a concrete input: two assets, the first failing. -/
theorem C6_failed_asset_skipped_witness :
    Event.errorMsg ("Error processing image " ++ fileBad.name ++ ": " ++ fileBad.convMsg) ∈
      run_analysis (cfgOf baseIn) (visionAgentOf "key") (uxAgentOf "key")
        ([] ++ fileBad :: [fileOK]) ∧
    (process_images (cfgOf baseIn).tempDir (cfgOf baseIn).uuidGen
      ([] ++ fileBad :: [fileOK])).2.length = ([] ++ fileBad :: [fileOK]).length - 1 ∧
    remoteCalls (run_analysis (cfgOf baseIn) (visionAgentOf "key") (uxAgentOf "key")
      ([] ++ fileBad :: [fileOK])) ≠ [] ∧
    (∀ c ∈ remoteCalls (run_analysis (cfgOf baseIn) (visionAgentOf "key")
        (uxAgentOf "key") ([] ++ fileBad :: [fileOK])),
      c.2.2 = (process_images (cfgOf baseIn).tempDir (cfgOf baseIn).uuidGen
        ([] ++ fileBad :: [fileOK])).2) :=
  C6_failed_asset_skipped (cfgOf baseIn) (visionAgentOf "key") (uxAgentOf "key")
    [] [fileOK] fileBad rfl (by decide) (by decide) (Or.inr (by decide))

/-! ### C7 -/

/-- C7: with an empty credential the script renders the configuration
warning with the API-key guidance and the get-started info line, makes zero
remote calls, and never renders the analysis form. -/
theorem C7_empty_credential (inp : ScriptInput) (hkey : inp.api_key = "") :
    script inp = ScriptResult.ok
      ([Event.headerE "🔑 API Configuration",
        Event.warning "Please enter your API key to proceed",
        Event.markdownE apiKeyGuidance,
        Event.headerE "Multimodal AI Design Agent Team",
        missingKeyInfo] ++ footerEvents) ∧
    remoteCalls (eventsOf (script inp)) = [] ∧
    Event.subheaderE "📤 Upload Design" ∉ eventsOf (script inp) := by
  have hs : script inp = ScriptResult.ok
      ([Event.headerE "🔑 API Configuration",
        Event.warning "Please enter your API key to proceed",
        Event.markdownE apiKeyGuidance,
        Event.headerE "Multimodal AI Design Agent Team",
        missingKeyInfo] ++ footerEvents) := by
    simp [script, sidebarEvents, hkey]
  refine ⟨hs, ?_, ?_⟩ <;> rw [hs] <;> decide

/-- Witness for C7 at a concrete input. -/
theorem C7_empty_credential_witness :
    script { baseIn with api_key := "" } = ScriptResult.ok
      ([Event.headerE "🔑 API Configuration",
        Event.warning "Please enter your API key to proceed",
        Event.markdownE apiKeyGuidance,
        Event.headerE "Multimodal AI Design Agent Team",
        missingKeyInfo] ++ footerEvents) ∧
    remoteCalls (eventsOf (script { baseIn with api_key := "" })) = [] ∧
    Event.subheaderE "📤 Upload Design" ∉
      eventsOf (script { baseIn with api_key := "" }) :=
  C7_empty_credential { baseIn with api_key := "" } rfl

/-! ### C8 -/

/-- Distinct uuid hexes give distinct temp paths. -/
theorem temp_path_inj (t : String) {x y : String}
    (h : temp_path t x = temp_path t y) : x = y := by
  unfold temp_path at h
  have hd := congrArg String.data h
  simp only [String.data_append] at hd
  exact String.ext (List.append_cancel_left (List.append_cancel_right hd))

/-- Every collected path comes from the uuid drawn at some position of the
processed window. -/
theorem process_images_from_urls_mem (t : String) (g : Nat → String) :
    ∀ (i : Nat) (fs : List DesignFile) (x : String),
    x ∈ (process_images_from t g i fs).2 →
    ∃ j, i ≤ j ∧ j < i + fs.length ∧ x = temp_path t (g j) := by
  intro i fs
  induction fs generalizing i with
  | nil =>
    intro x hx
    simp [process_images_from] at hx
  | cons f fs ih =>
    intro x hx
    simp only [process_images_from, List.mem_append] at hx
    by_cases h : f.conversionFails
    · rcases hx with hx | hx
      · simp [processOne, h] at hx
      · obtain ⟨j, hj1, hj2, hj3⟩ := ih (i + 1) x hx
        exact ⟨j, by omega, by simp only [List.length_cons]; omega, hj3⟩
    · rcases hx with hx | hx
      · simp only [processOne, h, Bool.false_eq_true, if_false,
          Option.toList_some, List.mem_singleton] at hx
        exact ⟨i, le_refl i, by simp only [List.length_cons]; omega, hx⟩
      · obtain ⟨j, hj1, hj2, hj3⟩ := ih (i + 1) x hx
        exact ⟨j, by omega, by simp only [List.length_cons]; omega, hj3⟩

/-- With the uuid draws of the processed window pairwise distinct, the
collected paths are pairwise distinct. -/
theorem process_images_from_urls_nodup (t : String) (g : Nat → String) :
    ∀ (i : Nat) (fs : List DesignFile),
    (∀ j k, i ≤ j → j < i + fs.length → i ≤ k → k < i + fs.length →
      g j = g k → j = k) →
    (process_images_from t g i fs).2.Nodup := by
  intro i fs
  induction fs generalizing i with
  | nil => intro _; simp [process_images_from]
  | cons f fs ih =>
    intro hinj
    simp only [process_images_from]
    by_cases h : f.conversionFails
    · simp only [processOne, h, if_true, Option.toList_none, List.nil_append]
      exact ih (i + 1) fun j k hj hjl hk hkl he =>
        hinj j k (by omega) (by simp only [List.length_cons]; omega)
          (by omega) (by simp only [List.length_cons]; omega) he
    · simp only [processOne, h, Bool.false_eq_true, if_false,
        Option.toList_some, List.singleton_append, List.nodup_cons]
      refine ⟨?_, ih (i + 1) fun j k hj hjl hk hkl he =>
        hinj j k (by omega) (by simp only [List.length_cons]; omega)
          (by omega) (by simp only [List.length_cons]; omega) he⟩
      intro hmem
      obtain ⟨j, hj1, hj2, hj3⟩ := process_images_from_urls_mem t g (i + 1) fs _ hmem
      have hij : i = j :=
        hinj i j (le_refl i) (by simp only [List.length_cons]; omega)
          (by omega) (by simp only [List.length_cons]; omega)
          (temp_path_inj t hj3)
      omega

/-- The Visual Design block writes no file. -/
theorem fsWrites_visionBlock (cfg : RunConfig) (va : Agent)
    (files : List DesignFile) (urls : List String) :
    fsWrites (visionBlock cfg va files urls).1 = [] := by
  by_cases hmem : "Visual Design" ∈ cfg.analysis_types <;>
    by_cases hne : files = [] <;>
    by_cases h2 : urls.isEmpty = true <;>
    cases ho : cfg.visionOutcome <;>
    simp [visionBlock, hmem, hne, h2, ho, fsWrites]

/-- The User Experience block writes no file. -/
theorem fsWrites_uxBlock (cfg : RunConfig) (ua : Agent) (urls : List String) :
    fsWrites (uxBlock cfg ua urls).1 = [] := by
  by_cases hmem : "User Experience" ∈ cfg.analysis_types <;>
    by_cases h2 : urls.isEmpty = true <;>
    cases ho : cfg.uxOutcome <;>
    simp [uxBlock, hmem, h2, ho, fsWrites]

/-- The handler writes exactly the paths the conversion loop collects. -/
theorem fsWrites_run_analysis (cfg : RunConfig) (va ua : Agent)
    (files : List DesignFile) :
    fsWrites (run_analysis cfg va ua files) =
      (process_images cfg.tempDir cfg.uuidGen files).2 := by
  by_cases h : files.isEmpty = true
  · have hnil : files = [] := by simpa using h
    subst hnil
    simp [run_analysis, process_images, process_images_from, fsWrites]
  · have h2 : files.isEmpty = false := by simpa using h
    have hpw : fsWrites (process_images cfg.tempDir cfg.uuidGen files).1 =
        (process_images cfg.tempDir cfg.uuidGen files).2 :=
      fsWrites_process_images_from cfg.tempDir cfg.uuidGen 0 files
    simp only [run_analysis, tryBody, h2, Bool.false_eq_true, if_false]
    cases (visionBlock cfg va files (process_images cfg.tempDir cfg.uuidGen files).2).2 with
    | some msg =>
      rw [fsWrites_append, fsWrites_append, hpw, fsWrites_visionBlock]
      simp [fsWrites]
    | none =>
      cases (uxBlock cfg ua (process_images cfg.tempDir cfg.uuidGen files).2).2 with
      | some msg =>
        rw [fsWrites_append, fsWrites_append, fsWrites_append, hpw,
          fsWrites_visionBlock, fsWrites_uxBlock]
        simp [fsWrites]
      | none =>
        rw [fsWrites_append, fsWrites_append, fsWrites_append, hpw,
          fsWrites_visionBlock, fsWrites_uxBlock]
        by_cases hl : 1 < cfg.analysis_types.length <;>
          simp [takeawaysBlock, hl, fsWrites]

/-- The conversion loop deletes no file. -/
theorem delete_not_mem_process_images (t : String) (g : Nat → String)
    (files : List DesignFile) (pth : String) :
    Event.fsDelete pth ∉ (process_images t g files).1 := by
  rw [process_images_eq]
  simp only [List.mem_map, not_exists, not_and]
  intro q _
  by_cases h : q.2.conversionFails <;> simp [h]

/-- The Visual Design block deletes no file. -/
theorem delete_not_mem_visionBlock (cfg : RunConfig) (va : Agent)
    (files : List DesignFile) (urls : List String) (pth : String) :
    Event.fsDelete pth ∉ (visionBlock cfg va files urls).1 := by
  by_cases hmem : "Visual Design" ∈ cfg.analysis_types <;>
    by_cases hne : files = [] <;>
    by_cases h2 : urls.isEmpty = true <;>
    cases ho : cfg.visionOutcome <;>
    simp [visionBlock, hmem, hne, h2, ho]

/-- The User Experience block deletes no file. -/
theorem delete_not_mem_uxBlock (cfg : RunConfig) (ua : Agent)
    (urls : List String) (pth : String) :
    Event.fsDelete pth ∉ (uxBlock cfg ua urls).1 := by
  by_cases hmem : "User Experience" ∈ cfg.analysis_types <;>
    by_cases h2 : urls.isEmpty = true <;>
    cases ho : cfg.uxOutcome <;>
    simp [uxBlock, hmem, h2, ho]

/-- The combined-insights block deletes no file. -/
theorem delete_not_mem_takeaways (types : List String) (pth : String) :
    Event.fsDelete pth ∉ takeawaysBlock types := by
  by_cases hl : 1 < types.length <;> simp [takeawaysBlock, hl]

/-- The whole button handler deletes no file. -/
theorem delete_not_mem_run (cfg : RunConfig) (va ua : Agent)
    (files : List DesignFile) (pth : String) :
    Event.fsDelete pth ∉ run_analysis cfg va ua files := by
  by_cases h : files.isEmpty = true
  · simp [run_analysis, h]
  · have h2 : files.isEmpty = false := by simpa using h
    simp only [run_analysis, tryBody, h2, Bool.false_eq_true, if_false]
    cases (visionBlock cfg va files (process_images cfg.tempDir cfg.uuidGen files).2).2 with
    | some msg =>
      simp only [List.mem_append, not_or]
      exact ⟨⟨delete_not_mem_process_images _ _ _ _,
        delete_not_mem_visionBlock _ _ _ _ _⟩, by simp⟩
    | none =>
      cases (uxBlock cfg ua (process_images cfg.tempDir cfg.uuidGen files).2).2 with
      | some msg =>
        simp only [List.mem_append, not_or]
        exact ⟨⟨⟨delete_not_mem_process_images _ _ _ _,
          delete_not_mem_visionBlock _ _ _ _ _⟩,
          delete_not_mem_uxBlock _ _ _ _⟩, by simp⟩
      | none =>
        simp only [List.mem_append, not_or]
        exact ⟨⟨⟨delete_not_mem_process_images _ _ _ _,
          delete_not_mem_visionBlock _ _ _ _ _⟩,
          delete_not_mem_uxBlock _ _ _ _⟩, delete_not_mem_takeaways _ _⟩

/-- The sidebar deletes no file. -/
theorem delete_not_mem_sidebar (k : String) (pth : String) :
    Event.fsDelete pth ∉ sidebarEvents k := by
  by_cases h : k = "" <;> simp [sidebarEvents, h]

/-- With a truthy credential and a failing agent construction, the script
run dies at the caller's tuple unpacking with the events so far. -/
theorem script_init_fail_eq (inp : ScriptInput) (hkey : ¬ inp.api_key = "")
    (hinit : inp.initRaises = true) :
    script inp = ScriptResult.uncaught
      (sidebarEvents inp.api_key ++
       [Event.headerE "Multimodal AI Design Agent Team",
        Event.errorMsg ("Error initializing agents: " ++ inp.initErr)])
      "ValueError: too many values to unpack (expected 2)" := by
  simp [script, mainBody, init_agents, hkey, hinit]

/-- No script execution — whatever its outcome — deletes a file. -/
theorem delete_not_mem_script (inp : ScriptInput) (pth : String) :
    Event.fsDelete pth ∉ eventsOf (script inp) := by
  by_cases hk : inp.api_key = ""
  · rw [script_empty_key_eq inp hk]
    simp [eventsOf, footerEvents, missingKeyInfo]
  · by_cases hi : inp.initRaises = true
    · rw [script_init_fail_eq inp hk hi]
      simp only [eventsOf, List.mem_append, not_or]
      exact ⟨delete_not_mem_sidebar _ _, by simp⟩
    · have hi2 : inp.initRaises = false := by simpa using hi
      by_cases hr : inp.runClicked = true
      · rw [script_run_eq inp hk hi2 hr]
        simp only [eventsOf, List.mem_append, not_or]
        refine ⟨⟨⟨⟨⟨delete_not_mem_sidebar _ _, by simp⟩, ?_⟩, by simp⟩,
          delete_not_mem_run _ _ _ _ _⟩, by simp [footerEvents]⟩
        cases inp.paste_image <;> simp
      · rw [script_not_run_eq inp hk hi2 (by simpa using hr)]
        simp only [eventsOf, List.mem_append, not_or]
        refine ⟨⟨⟨⟨delete_not_mem_sidebar _ _, by simp⟩, ?_⟩, by simp⟩,
          by simp [footerEvents]⟩
        cases inp.paste_image <;> simp

/-- C8: each design asset whose conversion succeeds causes exactly one
temporary-PNG write, at the platform temp directory under the uuid hex
drawn at its position with the ".png" suffix; when the run's uuid draws are
pairwise distinct the written paths are pairwise distinct; and neither the
handler nor any whole script execution ever deletes a file. -/
theorem C8_temp_writes (cfg : RunConfig) (va ua : Agent)
    (files : List DesignFile)
    (hinj : ∀ j k, j < files.length → k < files.length →
      cfg.uuidGen j = cfg.uuidGen k → j = k) :
    fsWrites (run_analysis cfg va ua files) =
      (files.enumFrom 0).filterMap
        (fun q => if q.2.conversionFails then none
          else some (temp_path cfg.tempDir (cfg.uuidGen q.1))) ∧
    (fsWrites (run_analysis cfg va ua files)).Nodup ∧
    (∀ pth, Event.fsDelete pth ∉ run_analysis cfg va ua files) ∧
    (∀ inp : ScriptInput, ∀ pth, Event.fsDelete pth ∉ eventsOf (script inp)) := by
  have hw := fsWrites_run_analysis cfg va ua files
  refine ⟨?_, ?_, delete_not_mem_run cfg va ua files,
    fun inp pth => delete_not_mem_script inp pth⟩
  · rw [hw, process_images_eq]
  · rw [hw]
    exact process_images_from_urls_nodup cfg.tempDir cfg.uuidGen 0 files
      fun j k _ hjl _ hkl he => hinj j k (by omega) (by omega) he

/-- Witness for C8 at a concrete input: two assets, the second failing. -/
theorem C8_temp_writes_witness :
    fsWrites (run_analysis (cfgOf baseIn) (visionAgentOf "key") (uxAgentOf "key")
        [fileOK, fileBad]) =
      (([fileOK, fileBad] : List DesignFile).enumFrom 0).filterMap
        (fun q => if q.2.conversionFails then none
          else some (temp_path (cfgOf baseIn).tempDir ((cfgOf baseIn).uuidGen q.1))) ∧
    (fsWrites (run_analysis (cfgOf baseIn) (visionAgentOf "key") (uxAgentOf "key")
        [fileOK, fileBad])).Nodup ∧
    (∀ pth, Event.fsDelete pth ∉ run_analysis (cfgOf baseIn) (visionAgentOf "key")
      (uxAgentOf "key") [fileOK, fileBad]) ∧
    (∀ inp : ScriptInput, ∀ pth, Event.fsDelete pth ∉ eventsOf (script inp)) :=
  C8_temp_writes (cfgOf baseIn) (visionAgentOf "key") (uxAgentOf "key")
    [fileOK, fileBad]
    (by
      intro j k hj hk he
      simp only [List.length_cons, List.length_nil] at hj hk
      interval_cases j <;> interval_cases k <;>
        first
        | rfl
        | exact absurd he (by decide))

/-! ### C9 -/

/-- C9: the design-asset list the run-analysis action receives has length
at most one: it is built from the optional paste-button result alone, and
no other control appends to it. -/
theorem C9_at_most_one_asset (inp : ScriptInput) :
    (design_files_of inp.paste_image).length ≤ 1 := by
  cases inp.paste_image <;> simp [design_files_of]

/-! ### C10 -/

/-- C10: with at least one design asset, every one of whose conversions
fails, the run makes zero remote calls, does not render the no-assets
warning, and still renders the combined-summary block whenever more than
one category is selected, although no analysis was performed. -/
theorem C10_all_fail_no_calls_still_summary (cfg : RunConfig) (va ua : Agent)
    (files : List DesignFile) (hne : files ≠ [])
    (hall : ∀ f ∈ files, f.conversionFails = true) :
    remoteCalls (run_analysis cfg va ua files) = [] ∧
    Event.warning "Please upload at least one design to analyze." ∉
      run_analysis cfg va ua files ∧
    (1 < cfg.analysis_types.length →
      ∃ pre, run_analysis cfg va ua files =
        pre ++ [Event.subheaderE "🎯 Key Takeaways", Event.info takeawaysText]) := by
  have hfe : files.isEmpty = false := by simpa using hne
  have hurls : (process_images cfg.tempDir cfg.uuidGen files).2 = [] :=
    process_images_urls_nil cfg.tempDir cfg.uuidGen files hall
  have hrun : run_analysis cfg va ua files =
      (process_images cfg.tempDir cfg.uuidGen files).1 ++
      (if "Visual Design" ∈ cfg.analysis_types then
        [Event.spinnerShown "🎨 Analyzing visual design..."] else []) ++
      (if "User Experience" ∈ cfg.analysis_types then
        [Event.spinnerShown "🔄 Analyzing user experience..."] else []) ++
      takeawaysBlock cfg.analysis_types := by
    by_cases hv : "Visual Design" ∈ cfg.analysis_types <;>
      by_cases hu : "User Experience" ∈ cfg.analysis_types <;>
      simp [run_analysis, tryBody, visionBlock, uxBlock, hfe, hurls, hne, hv, hu]
  refine ⟨?_, ?_, ?_⟩
  · rw [hrun, remoteCalls_append, remoteCalls_append, remoteCalls_append,
      remoteCalls_process_images]
    by_cases hv : "Visual Design" ∈ cfg.analysis_types <;>
      by_cases hu : "User Experience" ∈ cfg.analysis_types <;>
      by_cases hl : 1 < cfg.analysis_types.length <;>
      simp [hv, hu, hl, takeawaysBlock, remoteCalls]
  · rw [hrun]
    simp only [List.mem_append, not_or]
    refine ⟨⟨⟨warning_not_mem_process_images _ _ _ _, ?_⟩, ?_⟩, ?_⟩
    · by_cases hv : "Visual Design" ∈ cfg.analysis_types <;> simp [hv]
    · by_cases hu : "User Experience" ∈ cfg.analysis_types <;> simp [hu]
    · by_cases hl : 1 < cfg.analysis_types.length <;> simp [takeawaysBlock, hl]
  · intro hl
    refine ⟨(process_images cfg.tempDir cfg.uuidGen files).1 ++
      (if "Visual Design" ∈ cfg.analysis_types then
        [Event.spinnerShown "🎨 Analyzing visual design..."] else []) ++
      (if "User Experience" ∈ cfg.analysis_types then
        [Event.spinnerShown "🔄 Analyzing user experience..."] else []), ?_⟩
    rw [hrun]
    simp [takeawaysBlock, hl]

/-- Witness for C10 at a concrete input: one asset whose conversion fails
and both categories selected. -/
theorem C10_all_fail_no_calls_still_summary_witness :
    remoteCalls (run_analysis c4Cfg (visionAgentOf "key") (uxAgentOf "key")
      [fileBad]) = [] ∧
    Event.warning "Please upload at least one design to analyze." ∉
      run_analysis c4Cfg (visionAgentOf "key") (uxAgentOf "key") [fileBad] ∧
    (1 < c4Cfg.analysis_types.length →
      ∃ pre, run_analysis c4Cfg (visionAgentOf "key") (uxAgentOf "key") [fileBad] =
        pre ++ [Event.subheaderE "🎯 Key Takeaways", Event.info takeawaysText]) :=
  C10_all_fail_no_calls_still_summary c4Cfg (visionAgentOf "key") (uxAgentOf "key")
    [fileBad] (by decide) (by decide)

end DesignAgentTeam
